import Mathlib

/-
Verification of the AI SEO audit scanner (src/scanner.py).

The scanner performs read-only HTTP checks against a target URL and
aggregates them into a flat report.  We embed the network as a `World`
(a function from URL strings to optional HTTP responses: `none` models
any exception raised by `requests.get`), HTML parsing (BeautifulSoup)
abstractly by carrying the parsed `Page` alongside the raw body text in
each response, and JSON-LD script blocks as `Option Json` (the outcome
of `json.loads` on the block text: `none` models a `ValueError` on
malformed JSON or a `TypeError` on a missing text node, both of which
the source catches).

Python semantics that matter are modelled explicitly:
 - `"@type" in schema` is key membership on a dict, substring search on
   a str, element membership on a list, and raises `TypeError` on any
   other value (int, float, bool, None) - the source does NOT catch
   this, so `extract_schemas` returns `Except Unit _` with `.error ()`
   standing for an uncaught Python exception;
 - `schema["@type"]` raises `TypeError` on non-dict values;
 - `set.add` / `set.update` raise `TypeError` on unhashable values
   (dicts and lists);
 - the Python `set` of detected types is modelled as a duplicate-free
   list in insertion order (downstream only uses membership);
 - Python `==` between the hashable JSON scalars is modelled by
   `pyEqScalar`, including the numeric equality of `bool` and `int`.
-/

set_option autoImplicit false

namespace SeoScanner

/-- Substring check on character lists: does `pat` occur contiguously in
the list?  `startsWithL l p` is true when `p` is an initial segment of `l`. -/
def startsWithL : List Char → List Char → Bool
  | _, [] => true
  | [], _ :: _ => false
  | c :: cs, p :: ps => c == p && startsWithL cs ps

/-- Does `pat` occur contiguously anywhere in `hay`? -/
def containsL (hay pat : List Char) : Bool :=
  match hay with
  | [] => startsWithL [] pat
  | _ :: rest => startsWithL hay pat || containsL rest pat

/-- Python `pat in s` on strings: case-sensitive literal substring test. -/
def strContains (s pat : String) : Bool :=
  containsL s.toList pat.toList

/-- ASCII lower-casing of one character. -/
def lowerChar (c : Char) : Char :=
  if 'A' ≤ c && c ≤ 'Z' then Char.ofNat (c.toNat + 32) else c

/-- Python `str.lower()`, restricted to ASCII: every keyword the
scanner lowercases against ("noindex", "nofollow", "cloudflare",
header names) is ASCII, so non-ASCII case folding never matters. -/
def strLower (s : String) : String :=
  String.mk (s.toList.map lowerChar)

/-- JSON values, as produced by `json.loads`.  JSON numbers are modelled
as integers; no claim involves fractional numbers. -/
inductive Json where
  | null
  | bool (b : Bool)
  | num (n : Int)
  | str (s : String)
  | arr (xs : List Json)
  | obj (kvs : List (String × Json))

/-- Python `==` restricted to the hashable JSON scalars (None, bool,
int, str).  Mirrors CPython: `True == 1` and `False == 0` hold; values
of otherwise different types are unequal; containers compare unequal to
every scalar (only scalars ever reach the detected-type set). -/
def pyEqScalar : Json → Json → Bool
  | .null, .null => true
  | .bool a, .bool b => a == b
  | .num a, .num b => a == b
  | .bool a, .num b => (if a then (1 : Int) else 0) == b
  | .num a, .bool b => a == (if b then (1 : Int) else 0)
  | .str a, .str b => a == b
  | _, _ => false

/-- Python hashability of a JSON value: dicts and lists are unhashable. -/
def pyHashable : Json → Bool
  | .arr _ => false
  | .obj _ => false
  | _ => true

/-- `detected_types.add(x)`: raises `TypeError` (`.error ()`) on an
unhashable value, otherwise inserts `x` if no equal element is present.
The set is a duplicate-free list in insertion order. -/
def setAdd (s : List Json) (x : Json) : Except Unit (List Json) :=
  if pyHashable x then
    .ok (if s.any (fun y => pyEqScalar y x) then s else s ++ [x])
  else
    .error ()

/-- `detected_types.update(xs)`: adds each element of the list in order,
raising on the first unhashable one. -/
def setUpdate (s : List Json) (xs : List Json) : Except Unit (List Json) :=
  xs.foldlM setAdd s

/-- Python `"@type" in schema` (src/scanner.py line 79): key membership
on a dict, substring search on a str, element membership on a list, and
an uncaught `TypeError` on every other JSON value. -/
def pyContainsType : Json → Except Unit Bool
  | .obj kvs => .ok (kvs.any (fun kv => kv.1 == "@type"))
  | .str s => .ok (strContains s "@type")
  | .arr xs => .ok (xs.any (fun x => pyEqScalar x (Json.str "@type")))
  | _ => .error ()

/-- Python `schema["@type"]` (src/scanner.py line 80): dict lookup
(`json.loads` keeps the last of duplicate keys), `TypeError` on any
non-dict value that passed the membership test (str, list). -/
def pyGetType : Json → Except Unit Json
  | .obj kvs =>
    match kvs.reverse.find? (fun kv => kv.1 == "@type") with
    | some kv => .ok kv.2
    | none => .error ()
  | _ => .error ()

/-- The parsed page, i.e. the observable output of
`BeautifulSoup(html, "html.parser")` that the scanner consumes:
`metaRobots` is the first `<meta name="robots">` element (with its
optional `content` attribute), as returned by `soup.find`;
`ldJsonBlocks` lists every `<script type="application/ld+json">` element
in document order, each carried as the `json.loads` outcome of its text
(`none` = malformed JSON or missing text node, both caught). -/
structure Page where
  metaRobots : Option (Option String)
  ldJsonBlocks : List (Option Json)

/-- One successful `requests.get` outcome: status code, body text, the
parsed page of that text, and response headers (requests exposes a
case-insensitive mapping; we keep the raw pairs and look keys up
case-insensitively). -/
structure HttpResponse where
  status : Nat
  text : String
  page : Page
  headers : List (String × String)

/-- The network: what each URL returns.  `none` models any exception
from `requests.get` (timeout, DNS failure, connection refused, ...). -/
structure World where
  fetch : String → Option HttpResponse

/-- Case-insensitive header lookup, as in requests' header mapping. -/
def headerLookup (hs : List (String × String)) (k : String) : Option String :=
  (hs.find? (fun h => strLower h.1 == strLower k)).map (fun h => h.2)

/-- The scheme part of an absolute URL: `splitScheme l` returns the
characters before `"://"` and those after it, or `none` when no
`"://"` occurs. -/
def splitScheme : List Char → Option (List Char × List Char)
  | [] => none
  | c :: cs =>
    if c == ':' then
      match cs with
      | '/' :: '/' :: rest => some ([], rest)
      | _ => none
    else
      match splitScheme cs with
      | some (pre, post) => some (c :: pre, post)
      | none => none

/-- The netloc: characters up to the first path, query or fragment
delimiter. -/
def takeNetloc : List Char → List Char
  | [] => []
  | c :: cs => if c == '/' || c == '?' || c == '#' then [] else c :: takeNetloc cs

/-- `urljoin(base_url, "/robots.txt")` (src/scanner.py line 22),
simplified to the absolute http(s) URL case the scanner is used with:
keep scheme and netloc, replace everything after with `/robots.txt`.
Every theorem below quantifies over the fetch outcome of this computed
URL, so no claim depends on corner cases of the full RFC resolution. -/
def urljoinRobots (base : String) : String :=
  match splitScheme base.toList with
  | some (scheme, rest) =>
      String.mk (scheme ++ (':' :: '/' :: '/' :: takeNetloc rest)) ++ "/robots.txt"
  | none => "/robots.txt"

/-- `check_robots_txt` (src/scanner.py lines 20-28). -/
def check_robots_txt (w : World) (base_url : String) : String :=
  match w.fetch (urljoinRobots base_url) with
  | none => "⚠️ Could not check robots.txt"
  | some res =>
    if strContains res.text "GPTBot" then "❌ GPTBot is blocked in robots.txt"
    else "✅ GPTBot is not blocked"

/-- `check_meta_noindex` (src/scanner.py lines 30-39).  A found tag is
always truthy in Python; `tag.get("content", "")` defaults a missing
attribute to the empty string. -/
def check_meta_noindex (w : World) (base_url : String) : String :=
  match w.fetch base_url with
  | none => "⚠️ Could not check for \x27noindex\x27 tag"
  | some res =>
    match res.page.metaRobots with
    | some content =>
      if strContains (strLower (content.getD "")) "noindex" then
        "❌ \x27noindex\x27 tag found (may block GPTBot)"
      else "✅ No \x27noindex\x27 tag"
    | none => "✅ No \x27noindex\x27 tag"

/-- `check_meta_nofollow` (src/scanner.py lines 41-50). -/
def check_meta_nofollow (w : World) (base_url : String) : String :=
  match w.fetch base_url with
  | none => "⚠️ Could not check for \x27nofollow\x27 tag"
  | some res =>
    match res.page.metaRobots with
    | some content =>
      if strContains (strLower (content.getD "")) "nofollow" then
        "❌ \x27nofollow\x27 tag found (may block GPTBot crawling)"
      else "✅ No \x27nofollow\x27 tag"
    | none => "✅ No \x27nofollow\x27 tag"

/-- `check_bot_blocking_headers` (src/scanner.py lines 52-60). -/
def check_bot_blocking_headers (w : World) (base_url : String) : String :=
  match w.fetch base_url with
  | none => "⚠️ Could not check bot protection headers"
  | some res =>
    if (headerLookup res.headers "cf-ray").isSome
        || (headerLookup res.headers "x-protection").isSome
        || (headerLookup res.headers "server").any
            (fun v => strContains (strLower v) "cloudflare") then
      "⚠️ Cloudflare or bot protection detected (GPTBot may be blocked)"
    else
      "✅ No obvious bot protection headers"

/-- What one JSON-LD block contributes to `schema_data`
(src/scanner.py lines 67-75): nothing on parse failure, its elements if
it is a list (`extend`), itself otherwise (`append`). -/
def blockContrib : Option Json → List Json
  | none => []
  | some (Json.arr xs) => xs
  | some j => [j]

/-- The `schema_data` list accumulated by the first loop of
`extract_schemas`, in document order. -/
def collectBlocks (blocks : List (Option Json)) : List Json :=
  (blocks.map blockContrib).flatten

/-- One iteration of the second loop of `extract_schemas`
(src/scanner.py lines 78-84): membership test, lookup, then set add or
update; each step may raise an uncaught `TypeError`. -/
def addSchemaTypes (s : List Json) (schema : Json) : Except Unit (List Json) := do
  let b ← pyContainsType schema
  if b then
    let types ← pyGetType schema
    match types with
    | .arr xs => setUpdate s xs
    | t => setAdd s t
  else
    .ok s

/-- `extract_schemas` (src/scanner.py lines 63-86), over the page's
JSON-LD blocks.  `.error ()` is an uncaught Python exception escaping
the function. -/
def extract_schemas (blocks : List (Option Json)) : Except Unit (List Json) :=
  (collectBlocks blocks).foldlM addSchemaTypes []

/-- The fixed expected schema-type list (src/scanner.py line 99). -/
def expectedSchemas : List String :=
  ["Organization", "WebSite", "FAQPage", "HowTo", "Article"]

/-- The page `run_scan` feeds to `extract_schemas`: on fetch failure the
body is taken as `""` (src/scanner.py lines 91-94), which parses to a
page with no tags. -/
def scanPage (w : World) (url : String) : Page :=
  match w.fetch url with
  | some res => res.page
  | none => { metaRobots := none, ldJsonBlocks := [] }

/-- The aggregate report (src/scanner.py lines 102-109).  `schemas`
holds the Python values placed in the detected-type set (scalars, not
necessarily strings). -/
structure ScanReport where
  robots_txt : String
  meta_noindex : String
  meta_nofollow : String
  bot_protection : String
  schemas : List Json
  missing_schemas : List String

/-- `run_scan` (src/scanner.py lines 89-109).  The page fetch is
guarded by try/except, but `extract_schemas` is not: an exception there
escapes to the caller before any check runs, modelled by propagating
`.error ()`.  `missing` is `[s for s in expected if s not in schemas]`
with Python `==` membership. -/
def run_scan (w : World) (url : String) : Except Unit ScanReport :=
  match extract_schemas (scanPage w url).ldJsonBlocks with
  | .error e => .error e
  | .ok schemas =>
    .ok {
      robots_txt := check_robots_txt w url
      meta_noindex := check_meta_noindex w url
      meta_nofollow := check_meta_nofollow w url
      bot_protection := check_bot_blocking_headers w url
      schemas := schemas
      missing_schemas :=
        expectedSchemas.filter
          (fun s => !(schemas.any (fun y => pyEqScalar (Json.str s) y)))
    }

/-! ### Concrete fixtures used by witnesses and counterexample evaluations -/

/-- A page with no meta-robots tag and no JSON-LD blocks, i.e. the
parse of the empty body. -/
def emptyPage : Page := { metaRobots := none, ldJsonBlocks := [] }

/-- A world in which every fetch fails (unreachable network). -/
def wDown : World := { fetch := fun _ => none }

/-- A world in which every URL returns the same fixed response. -/
def wConst (r : HttpResponse) : World := { fetch := fun _ => some r }

/-- A response whose only JSON-LD block is the scalar JSON value `42`. -/
def respScalar : HttpResponse :=
  { status := 200
    text := "<script type=\x22application/ld+json\x22>42</script>"
    page := { metaRobots := none, ldJsonBlocks := [some (Json.num 42)] }
    headers := [] }

/-- A robots.txt response (served with status 404) whose body mentions
GPTBot only on a line scoped inside a comment. -/
def respRobots : HttpResponse :=
  { status := 404
    text := "# note: GPTBot is welcome here\nUser-agent: *\nAllow: /"
    page := emptyPage
    headers := [] }

/-! ### Claim theorems -/

/-- Claim C1 (code bug evaluation): on a page whose only JSON-LD script
block parses to the JSON number `42`, the expression `"@type" in 42`
raises an uncaught `TypeError` inside `extract_schemas`, which escapes
`run_scan`: no report is produced, contradicting the spec requirement
that a scan never fails outright. -/
theorem run_scan_raises_on_scalar_jsonld :
    run_scan (wConst respScalar) "https://c1.example" = Except.error () := rfl

/-- Claim C2: the robots-permission check returns UNKNOWN exactly when
the fetch of the resolved robots.txt URL fails; on success it returns
BLOCKED iff the raw body contains the case-sensitive literal substring
"GPTBot", and PASS iff it does not. -/
theorem check_robots_txt_spec (w : World) (url : String) :
    (check_robots_txt w url = "⚠️ Could not check robots.txt"
        ↔ w.fetch (urljoinRobots url) = none)
    ∧ (∀ res, w.fetch (urljoinRobots url) = some res →
        (check_robots_txt w url = "❌ GPTBot is blocked in robots.txt"
            ↔ strContains res.text "GPTBot" = true)
        ∧ (check_robots_txt w url = "✅ GPTBot is not blocked"
            ↔ strContains res.text "GPTBot" = false)) := by
  unfold check_robots_txt
  cases h : w.fetch (urljoinRobots url) with
  | none =>
    exact ⟨by simp, fun res hres => by simp at hres⟩
  | some res =>
    constructor
    · cases hg : strContains res.text "GPTBot" <;> simp [hg]
    · intro r hr
      cases Option.some.inj hr
      cases hg : strContains res.text "GPTBot" <;> simp [hg]

/-- Claim C2 witness: a robots.txt body mentioning GPTBot only inside a
comment still yields BLOCKED. -/
theorem check_robots_txt_spec_witness :
    check_robots_txt (wConst respRobots) "https://c2.example"
      = "❌ GPTBot is blocked in robots.txt" := by
  have h := (check_robots_txt_spec (wConst respRobots) "https://c2.example").2
      respRobots rfl
  exact h.1.mpr rfl

/-- A response carrying the two JSON-LD blocks of the C5 scenario. -/
def respSchemas : HttpResponse :=
  { status := 200
    text := ""
    page :=
      { metaRobots := none
        ldJsonBlocks :=
          [some (Json.obj [("@type", Json.str "Organization")]),
           some (Json.arr
            [Json.obj [("@type", Json.str "WebSite")],
             Json.obj [("@type", Json.arr [Json.str "Article", Json.str "FAQPage"])]])] }
    headers := [] }

/-- Claim C5: on a page with one JSON-LD object block declaring type
Organization and one array block declaring WebSite and the type list
[Article, FAQPage], the detected-type set holds exactly Organization,
WebSite, Article and FAQPage (listed in insertion order by the model)
and the missing list is exactly ["HowTo"]. -/
theorem schema_extraction_example :
    (run_scan (wConst respSchemas) "https://c5.example").map
        (fun r => (r.schemas, r.missing_schemas))
      = Except.ok
          ([Json.str "Organization", Json.str "WebSite",
            Json.str "Article", Json.str "FAQPage"],
           ["HowTo"]) := rfl

/-- Claim C6: a JSON-LD block whose text fails to parse as JSON is
skipped silently: inserting such a block anywhere among a page's blocks
leaves the extraction result unchanged. -/
theorem malformed_block_skipped (pre post : List (Option Json)) :
    extract_schemas (pre ++ none :: post) = extract_schemas (pre ++ post) := by
  unfold extract_schemas
  have hc : collectBlocks (pre ++ none :: post) = collectBlocks (pre ++ post) := by
    simp [collectBlocks, blockContrib]
  rw [hc]

/-- On a failed page fetch the noindex check reports that it could not
check. -/
theorem meta_noindex_unknown (w : World) (url : String) (hf : w.fetch url = none) :
    check_meta_noindex w url = "⚠️ Could not check for \x27noindex\x27 tag" := by
  unfold check_meta_noindex
  rw [hf]

/-- On a failed page fetch the nofollow check reports that it could not
check. -/
theorem meta_nofollow_unknown (w : World) (url : String) (hf : w.fetch url = none) :
    check_meta_nofollow w url = "⚠️ Could not check for \x27nofollow\x27 tag" := by
  unfold check_meta_nofollow
  rw [hf]

/-- On a successful page fetch the noindex check is BLOCKED iff the
first meta-robots tag exists and its lower-cased content contains
"noindex", and PASS iff it does not. -/
theorem meta_noindex_found (w : World) (url : String) (res : HttpResponse)
    (hf : w.fetch url = some res) :
    (check_meta_noindex w url = "❌ \x27noindex\x27 tag found (may block GPTBot)"
        ↔ ∃ c, res.page.metaRobots = some c
            ∧ strContains (strLower (c.getD "")) "noindex" = true)
    ∧ (check_meta_noindex w url = "✅ No \x27noindex\x27 tag"
        ↔ ¬ ∃ c, res.page.metaRobots = some c
            ∧ strContains (strLower (c.getD "")) "noindex" = true) := by
  unfold check_meta_noindex
  rw [hf]
  cases hm : res.page.metaRobots with
  | none => simp [hm]
  | some c =>
    cases hg : strContains (strLower (c.getD "")) "noindex" <;> simp [hm, hg]

/-- On a successful page fetch the nofollow check is BLOCKED iff the
first meta-robots tag exists and its lower-cased content contains
"nofollow", and PASS iff it does not. -/
theorem meta_nofollow_found (w : World) (url : String) (res : HttpResponse)
    (hf : w.fetch url = some res) :
    (check_meta_nofollow w url = "❌ \x27nofollow\x27 tag found (may block GPTBot crawling)"
        ↔ ∃ c, res.page.metaRobots = some c
            ∧ strContains (strLower (c.getD "")) "nofollow" = true)
    ∧ (check_meta_nofollow w url = "✅ No \x27nofollow\x27 tag"
        ↔ ¬ ∃ c, res.page.metaRobots = some c
            ∧ strContains (strLower (c.getD "")) "nofollow" = true) := by
  unfold check_meta_nofollow
  rw [hf]
  cases hm : res.page.metaRobots with
  | none => simp [hm]
  | some c =>
    cases hg : strContains (strLower (c.getD "")) "nofollow" <;> simp [hm, hg]

/-- Claim C3: on a successful page fetch the noindex (resp. nofollow)
check is BLOCKED iff the first meta-robots tag exists and its
lower-cased content contains "noindex" (resp. "nofollow"), and PASS
otherwise; an absent tag, a missing content attribute or an empty
content yields PASS for both; a failed fetch yields UNKNOWN for both. -/
theorem meta_checks_spec (w : World) (url : String) :
    (w.fetch url = none →
        check_meta_noindex w url = "⚠️ Could not check for \x27noindex\x27 tag"
        ∧ check_meta_nofollow w url = "⚠️ Could not check for \x27nofollow\x27 tag")
    ∧ (∀ res, w.fetch url = some res →
        (check_meta_noindex w url = "❌ \x27noindex\x27 tag found (may block GPTBot)"
            ↔ ∃ c, res.page.metaRobots = some c
                ∧ strContains (strLower (c.getD "")) "noindex" = true)
        ∧ (check_meta_noindex w url = "✅ No \x27noindex\x27 tag"
            ↔ ¬ ∃ c, res.page.metaRobots = some c
                ∧ strContains (strLower (c.getD "")) "noindex" = true)
        ∧ (check_meta_nofollow w url = "❌ \x27nofollow\x27 tag found (may block GPTBot crawling)"
            ↔ ∃ c, res.page.metaRobots = some c
                ∧ strContains (strLower (c.getD "")) "nofollow" = true)
        ∧ (check_meta_nofollow w url = "✅ No \x27nofollow\x27 tag"
            ↔ ¬ ∃ c, res.page.metaRobots = some c
                ∧ strContains (strLower (c.getD "")) "nofollow" = true)
        ∧ ((res.page.metaRobots = none ∨ res.page.metaRobots = some none
              ∨ res.page.metaRobots = some (some "")) →
            check_meta_noindex w url = "✅ No \x27noindex\x27 tag"
            ∧ check_meta_nofollow w url = "✅ No \x27nofollow\x27 tag")) := by
  refine ⟨fun hf => ⟨meta_noindex_unknown w url hf, meta_nofollow_unknown w url hf⟩, ?_⟩
  intro res hf
  have hni := meta_noindex_found w url res hf
  have hnf := meta_nofollow_found w url res hf
  refine ⟨hni.1, hni.2, hnf.1, hnf.2, fun habs => ⟨?_, ?_⟩⟩
  · apply hni.2.mpr
    rintro ⟨c, hc, hs⟩
    rcases habs with h | h | h <;> rw [h] at hc
    · cases hc
    · cases Option.some.inj hc
      exact absurd hs (by decide)
    · cases Option.some.inj hc
      exact absurd hs (by decide)
  · apply hnf.2.mpr
    rintro ⟨c, hc, hs⟩
    rcases habs with h | h | h <;> rw [h] at hc
    · cases hc
    · cases Option.some.inj hc
      exact absurd hs (by decide)
    · cases Option.some.inj hc
      exact absurd hs (by decide)

/-- A page whose meta-robots content is exactly "noindex, nofollow". -/
def respMeta : HttpResponse :=
  { status := 200
    text := "<meta name=\x22robots\x22 content=\x22noindex, nofollow\x22>"
    page := { metaRobots := some (some "noindex, nofollow"), ldJsonBlocks := [] }
    headers := [] }

/-- Claim C3 witness: a meta-robots content of exactly
"noindex, nofollow" makes both checks return BLOCKED. -/
theorem meta_checks_spec_witness :
    check_meta_noindex (wConst respMeta) "https://c3.example"
      = "❌ \x27noindex\x27 tag found (may block GPTBot)"
    ∧ check_meta_nofollow (wConst respMeta) "https://c3.example"
      = "❌ \x27nofollow\x27 tag found (may block GPTBot crawling)" := by
  have h := (meta_checks_spec (wConst respMeta) "https://c3.example").2 respMeta rfl
  exact ⟨h.1.mpr ⟨some "noindex, nofollow", rfl, by decide⟩,
         h.2.2.1.mpr ⟨some "noindex, nofollow", rfl, by decide⟩⟩

/-- `Option.any` is an existence test. -/
theorem option_any_eq_true (o : Option String) (p : String → Bool) :
    o.any p = true ↔ ∃ v, o = some v ∧ p v = true := by
  cases o <;> simp [Option.any]

/-- Claim C4: on a successful page fetch the bot-protection check warns
iff a cf-ray header exists, or an x-protection header exists, or a
server header exists whose value contains "cloudflare" as a
case-insensitive substring (header keys looked up case-insensitively);
a failed fetch yields a could-not-check outcome distinct from the
protection-detected outcome. -/
theorem bot_protection_spec (w : World) (url : String) :
    (w.fetch url = none →
        check_bot_blocking_headers w url = "⚠️ Could not check bot protection headers")
    ∧ (∀ res, w.fetch url = some res →
        (check_bot_blocking_headers w url
            = "⚠️ Cloudflare or bot protection detected (GPTBot may be blocked)"
          ↔ ((headerLookup res.headers "cf-ray").isSome = true
              ∨ (headerLookup res.headers "x-protection").isSome = true
              ∨ ∃ v, headerLookup res.headers "server" = some v
                  ∧ strContains (strLower v) "cloudflare" = true))
        ∧ (check_bot_blocking_headers w url
            = "✅ No obvious bot protection headers"
          ↔ ¬ ((headerLookup res.headers "cf-ray").isSome = true
              ∨ (headerLookup res.headers "x-protection").isSome = true
              ∨ ∃ v, headerLookup res.headers "server" = some v
                  ∧ strContains (strLower v) "cloudflare" = true)))
    ∧ ("⚠️ Cloudflare or bot protection detected (GPTBot may be blocked)"
        ≠ "⚠️ Could not check bot protection headers") := by
  refine ⟨fun hf => ?_, fun res hf => ?_, by decide⟩
  · unfold check_bot_blocking_headers
    rw [hf]
  · have hP : ((headerLookup res.headers "cf-ray").isSome = true
        ∨ (headerLookup res.headers "x-protection").isSome = true
        ∨ ∃ v, headerLookup res.headers "server" = some v
            ∧ strContains (strLower v) "cloudflare" = true)
      ↔ ((headerLookup res.headers "cf-ray").isSome
          || (headerLookup res.headers "x-protection").isSome
          || (headerLookup res.headers "server").any
              (fun v => strContains (strLower v) "cloudflare")) = true := by
      rw [Bool.or_eq_true, Bool.or_eq_true, option_any_eq_true, or_assoc]
    rw [hP]
    unfold check_bot_blocking_headers
    rw [hf]
    cases hb : ((headerLookup res.headers "cf-ray").isSome
        || (headerLookup res.headers "x-protection").isSome
        || (headerLookup res.headers "server").any
            (fun v => strContains (strLower v) "cloudflare")) <;> simp [hb]

/-- A response behind Cloudflare: a CF-RAY header (upper-case key) and
a Server header naming CloudFlare. -/
def respCloudflare : HttpResponse :=
  { status := 200
    text := ""
    page := emptyPage
    headers := [("CF-RAY", "8a1b2c3d4e5f0000-SJC"), ("Server", "CloudFlare")] }

/-- Claim C4 witness: an upper-cased CF-RAY header is found by the
case-insensitive lookup and triggers the protection warning. -/
theorem bot_protection_spec_witness :
    check_bot_blocking_headers (wConst respCloudflare) "https://c4.example"
      = "⚠️ Cloudflare or bot protection detected (GPTBot may be blocked)" := by
  have h := ((bot_protection_spec (wConst respCloudflare) "https://c4.example").2.1
      respCloudflare rfl).1
  exact h.mpr (Or.inl rfl)

/-- Claim C6 witness: a malformed block after a valid Organization
block leaves the extraction result unchanged. -/
theorem malformed_block_skipped_witness :
    extract_schemas ([some (Json.obj [("@type", Json.str "Organization")])] ++ none :: [])
      = extract_schemas ([some (Json.obj [("@type", Json.str "Organization")])] ++ []) :=
  malformed_block_skipped [some (Json.obj [("@type", Json.str "Organization")])] []

/-- Every produced report computes `missing_schemas` by filtering the
expected list against membership in the detected set. -/
theorem run_scan_ok_missing (w : World) (url : String) (r : ScanReport)
    (h : run_scan w url = Except.ok r) :
    r.missing_schemas = expectedSchemas.filter
        (fun s => !(r.schemas.any (fun y => pyEqScalar (Json.str s) y))) := by
  unfold run_scan at h
  cases hx : extract_schemas (scanPage w url).ldJsonBlocks with
  | error e => rw [hx] at h; cases h
  | ok schemas => rw [hx] at h; cases h; rfl

/-- When the page fetch fails, the body degrades to the empty string:
extraction runs on an empty page, finds nothing, and the scan returns a
report with an empty detected set and the full expected list missing. -/
theorem run_scan_fetch_none (w : World) (url : String) (hf : w.fetch url = none) :
    run_scan w url = Except.ok
      { robots_txt := check_robots_txt w url
        meta_noindex := check_meta_noindex w url
        meta_nofollow := check_meta_nofollow w url
        bot_protection := check_bot_blocking_headers w url
        schemas := []
        missing_schemas := expectedSchemas } := by
  unfold run_scan scanPage
  rw [hf]
  rfl

/-- Claim C7: `missing_schemas` contains exactly those names of the
fixed expected list absent from the detected set, in the fixed order
Organization, WebSite, FAQPage, HowTo, Article (it is a sublist of the
expected list); when the page fetch fails the detected set is empty and
the missing list is the full expected list. -/
theorem missing_schemas_spec (w : World) (url : String) (r : ScanReport)
    (h : run_scan w url = Except.ok r) :
    (∀ s, s ∈ r.missing_schemas
        ↔ (s ∈ expectedSchemas
            ∧ r.schemas.any (fun y => pyEqScalar (Json.str s) y) = false))
    ∧ r.missing_schemas.Sublist expectedSchemas
    ∧ (w.fetch url = none → r.schemas = [] ∧ r.missing_schemas = expectedSchemas) := by
  have hm := run_scan_ok_missing w url r h
  refine ⟨?_, ?_, ?_⟩
  · intro s
    rw [hm, List.mem_filter]
    simp
  · rw [hm]
    exact List.filter_sublist _
  · intro hf
    rw [run_scan_fetch_none w url hf] at h
    cases h
    exact ⟨rfl, rfl⟩

/-- Claim C7 witness: with every fetch failing, the scan still returns
a report with an empty detected set and the full expected list
missing. -/
theorem missing_schemas_spec_witness :
    ∃ r, run_scan wDown "https://c7.example" = Except.ok r
      ∧ r.schemas = [] ∧ r.missing_schemas = expectedSchemas := by
  refine ⟨_, rfl, ?_⟩
  exact (missing_schemas_spec wDown "https://c7.example" _ rfl).2.2 rfl

/-- Claim C8: the scan is a pure function of the fetched responses: two
worlds returning identical responses for the page URL and the resolved
robots.txt URL produce identical reports (schemas field included), so
scanning an unchanged site twice yields the same report and no state is
carried between invocations. -/
theorem scan_idempotent (w₁ w₂ : World) (url : String)
    (h1 : w₁.fetch url = w₂.fetch url)
    (h2 : w₁.fetch (urljoinRobots url) = w₂.fetch (urljoinRobots url)) :
    run_scan w₁ url = run_scan w₂ url := by
  unfold run_scan scanPage check_robots_txt check_meta_noindex check_meta_nofollow
    check_bot_blocking_headers
  rw [h1, h2]

/-- A world extensionally equal to `wConst respRobots` on every
non-empty URL, but built differently. -/
def wTwin : World :=
  { fetch := fun u => if u.length = 0 then none else some respRobots }

/-- Claim C8 witness: two differently built worlds serving the same
responses give the same report. -/
theorem scan_idempotent_witness :
    run_scan (wConst respRobots) "https://c8.example"
      = run_scan wTwin "https://c8.example" :=
  scan_idempotent (wConst respRobots) wTwin "https://c8.example" rfl rfl

/-- Replace every response's status code pointwise, leaving body,
parsed page and headers unchanged. -/
def setStatuses (f : Nat → Nat) (w : World) : World :=
  { fetch := fun u => (w.fetch u).map (fun r => { r with status := f r.status }) }

/-- Claim C9: no check ever inspects the HTTP status code: rewriting
every response status (e.g. turning every status into a 404) leaves the
whole report unchanged, and a robots.txt response whose body contains
"GPTBot" yields BLOCKED whatever its status code was. -/
theorem status_code_ignored (w : World) (f : Nat → Nat) (url : String) :
    run_scan (setStatuses f w) url = run_scan w url
    ∧ (∀ res, w.fetch (urljoinRobots url) = some res →
        strContains res.text "GPTBot" = true →
        check_robots_txt w url = "❌ GPTBot is blocked in robots.txt") := by
  constructor
  · unfold run_scan scanPage check_robots_txt check_meta_noindex check_meta_nofollow
      check_bot_blocking_headers setStatuses
    cases hp : w.fetch url <;> cases hr : w.fetch (urljoinRobots url) <;>
      simp [hp, hr]
  · intro res hres hg
    unfold check_robots_txt
    rw [hres]
    simp [hg]

/-- Claim C9 witness: the scan against the 404-robots world is
unchanged by forcing every status to 200, and its GPTBot-mentioning
404 body yields BLOCKED. -/
theorem status_code_ignored_witness :
    run_scan (setStatuses (fun _ => 200) (wConst respRobots)) "https://c9.example"
      = run_scan (wConst respRobots) "https://c9.example"
    ∧ check_robots_txt (wConst respRobots) "https://c9.example"
      = "❌ GPTBot is blocked in robots.txt" := by
  have h := status_code_ignored (wConst respRobots) (fun _ => 200) "https://c9.example"
  exact ⟨h.1, h.2 respRobots rfl rfl⟩

/-- Claim C10: in every produced report, each of the five expected
schema names is in `missing_schemas` iff it is absent from `schemas`,
and `missing_schemas` is a subsequence of the fixed expected list,
hence duplicate-free and of length at most five. -/
theorem report_schema_invariant (w : World) (url : String) (r : ScanReport)
    (h : run_scan w url = Except.ok r) :
    (∀ s, s ∈ expectedSchemas →
        (s ∈ r.missing_schemas
          ↔ r.schemas.any (fun y => pyEqScalar (Json.str s) y) = false))
    ∧ r.missing_schemas.Sublist expectedSchemas
    ∧ r.missing_schemas.length ≤ 5
    ∧ r.missing_schemas.Nodup := by
  have hm := run_scan_ok_missing w url r h
  have hsub : r.missing_schemas.Sublist expectedSchemas := by
    rw [hm]
    exact List.filter_sublist _
  refine ⟨?_, hsub, hsub.length_le, hsub.nodup (by decide)⟩
  intro s hs
  rw [hm, List.mem_filter]
  simp [hs]

/-- Claim C10 witness: the invariant evaluated on the concrete
four-schema page. -/
theorem report_schema_invariant_witness :
    ∃ r, run_scan (wConst respSchemas) "https://c10.example" = Except.ok r
      ∧ r.missing_schemas.length ≤ 5 ∧ r.missing_schemas.Nodup := by
  refine ⟨_, rfl, ?_⟩
  have h := report_schema_invariant (wConst respSchemas) "https://c10.example" _ rfl
  exact ⟨h.2.2.1, h.2.2.2⟩

end SeoScanner
